import Mathlib

/-!
Verification development for the SuperDesign agent orchestration core.

The embedding translates, from the TypeScript sources:
  - src/src/core/agent.ts        (BaseAgent, SuperDesignCodingAgent, ClaudeCodeAgentWrapper)
  - the LLM service module       (LLMService: validateConfig, getModel, generateResponse,
                                  updateConfig)
into executable Lean definitions.  Machine numbers (millisecond clock readings,
durations, costs) are modelled as Int; JavaScript truthiness on strings is made
explicit through the jsTruthy / jsOr helpers.  External collaborators (the
provider SDK call generateText, the delegated external agent service) are
modelled as explicit input parameters of type Except String _ carrying either
the value they produced or the exception they threw, so each translated method
is a total state-passing function.  The message-adapter module
(src/utils/message-adapter) is imported by agent.ts but its source file is not
part of the snapshot; its conversion functions are modelled from the spec
(section 4.2), each marked in its doc comment.
-/

/-! ## JavaScript truthiness helpers -/

/-- Truthiness of an optional string as JavaScript sees it: undefined and the
empty string are falsy, every other string is truthy. -/
def jsTruthy : Option String → Bool
  | none => false
  | some s => s ≠ ""

/-- The JavaScript expression a short-circuit-or b on optional strings:
the first operand when truthy, otherwise the second operand unchanged. -/
def jsOr (a b : Option String) : Option String :=
  if jsTruthy a then a else b

/-- The JavaScript expression a short-circuit-or d where d is a plain string
default: the first operand when truthy, otherwise the default. -/
def jsOrDefault (a : Option String) (d : String) : String :=
  if jsTruthy a then a.getD d else d

/-- Order-preserving deduplication keeping the first occurrence of each
element, the behaviour of spreading a JavaScript Set built from a list. -/
def jsSetDedup : List String → List String
  | [] => []
  | x :: xs => x :: jsSetDedup (xs.filter (fun y => y ≠ x))
termination_by l => l.length
decreasing_by
  simp only [List.length_cons]
  exact Nat.lt_succ_of_le (List.length_filter_le _ _)

/-! ## Association-list store (models the JavaScript Map objects) -/

/-- Lookup in an association list, the model of Map.get. -/
def lookupStore {α : Type} : List (String × α) → String → Option α
  | [], _ => none
  | (k, v) :: rest, key => if k = key then some v else lookupStore rest key

/-- Insert or replace in an association list, the model of Map.set. -/
def insertStore {α : Type} : List (String × α) → String → α → List (String × α)
  | [], key, value => [(key, value)]
  | (k, v) :: rest, key, value =>
      if k = key then (key, value) :: rest else (k, v) :: insertStore rest key value

theorem lookupStore_insertStore_self {α : Type} (st : List (String × α)) (k : String) (v : α) :
    lookupStore (insertStore st k v) k = some v := by
  induction st with
  | nil => simp [insertStore, lookupStore]
  | cons p rest ih =>
      by_cases h : p.1 = k
      · simp [insertStore, lookupStore, h]
      · simp [insertStore, lookupStore, h, ih]

/-! ## Data model (agent.ts and the LLM service module) -/

/-- Message type tag of the uniform SDKMessage (agent.ts line 11). -/
inductive MsgType
  | user
  | assistant
  | system
  | result
deriving DecidableEq, BEq, Repr

/-- Uniform message exchanged between orchestrator and UI (agent.ts
interface SDKMessage).  The payload field named message in the source holds
provider-specific data; here it carries the resolved tool name when present. -/
structure SDKMessage where
  type : MsgType
  subtype : Option String := none
  message : Option String := none
  content : Option String := none
  session_id : Option String := none
  parent_tool_use_id : Option String := none
  duration_ms : Option Int := none
  total_cost_usd : Option Int := none
deriving DecidableEq, Repr

/-- Role of a conversation message (llm-service interface ConversationMessage). -/
inductive Role
  | system
  | user
  | assistant
deriving DecidableEq, BEq, Repr

/-- Conversation message, the literal prompt history unit
(llm-service interface ConversationMessage). -/
structure ConversationMessage where
  role : Role
  content : String
  timestamp : Option Int := none
deriving DecidableEq, Repr

/-- Raw tool-call record as the provider SDK may shape it.  The agent code
reads toolCall.toolName, toolCall.function.name, toolCall.name,
toolCall.toolCallId, toolCall.id, toolCall.args and
toolCall.function.arguments, each possibly absent; the nested function
fields are flattened here. -/
structure ToolCallRaw where
  toolCallId : Option String := none
  id : Option String := none
  toolName : Option String := none
  functionName : Option String := none
  name : Option String := none
  args : Option String := none
  functionArguments : Option String := none
deriving DecidableEq, Repr

/-- Raw tool-result record as reported by the provider SDK within a step. -/
structure ToolResultRaw where
  toolCallId : Option String := none
  toolName : Option String := none
  result : Option String := none
deriving DecidableEq, Repr

/-- One provider step: zero or more tool calls and their resolved results;
either list may be absent on the raw SDK object. -/
structure Step where
  toolCalls : Option (List ToolCallRaw) := none
  toolResults : Option (List ToolResultRaw) := none
deriving DecidableEq, Repr

/-- Token usage statistics (llm-service LLMResponse.usage). -/
structure Usage where
  promptTokens : Nat
  completionTokens : Nat
deriving DecidableEq, Repr

/-- Raw result of the provider SDK call generateText, an external
collaborator: final text, optional usage, optional finish reason and the
optional list of steps taken. -/
structure GenerateTextResult where
  text : String
  usage : Option Usage := none
  finishReason : Option String := none
  steps : Option (List Step) := none
deriving DecidableEq, Repr

/-- Result shape returned by LLMService.generateResponse
(llm-service interface LLMResponse). -/
structure LLMResponse where
  content : String
  usage : Option Usage := none
  finishReason : Option String := none
  toolCalls : List ToolCallRaw := []
  toolResults : List ToolResultRaw := []
  steps : List Step := []
deriving DecidableEq, Repr

/-- Task execution result (agent.ts interface TaskResult). -/
structure TaskResult where
  success : Bool
  messages : List SDKMessage
  finalMessage : Option String := none
  toolsUsed : List String
  duration : Int
  totalCost : Option Int := none
  error : Option String := none
deriving DecidableEq, Repr

/-- Agent response for a conversation turn (agent.ts interface
AgentResponse).  The free-form context mapping of the source is not
inspected by any claim and is omitted. -/
structure AgentResponse where
  messages : List SDKMessage
  isComplete : Bool
  suggestedActions : List String := []
deriving DecidableEq, Repr

/-- Conversation turn stored on a session (agent.ts interface
ConversationTurn).  Tool results attached to a turn are recorded by name. -/
structure ConversationTurn where
  id : String
  timestamp : Int
  userMessage : String
  agentResponse : AgentResponse
  toolResults : List String := []
deriving DecidableEq, Repr

/-- Per-session conversation state (agent.ts interface AgentSession).  The
free-form context Map is not inspected by any claim and is omitted. -/
structure AgentSession where
  id : String
  startTime : Int
  lastActivity : Int
  projectPath : String
  turns : List ConversationTurn := []
deriving DecidableEq, Repr

/-- Options accepted by the task-execution entry points (agent.ts interface
AgentOptions).  The onMessage callback and the abort controller are
side-channel collaborators and are not part of the value model. -/
structure AgentOptions where
  maxTurns : Option Nat := none
  temperature : Option Nat := none
  maxTokens : Option Nat := none
  maxSteps : Option Nat := none
  systemPrompt : Option String := none
  sessionId : Option String := none
deriving DecidableEq, Repr

/-- Supported provider names (llm-service interface LLMProvider.name). -/
inductive ProviderName
  | openai
  | anthropic
  | google
  | openrouter
deriving DecidableEq, BEq, Repr

/-- Display string of a provider name, used in configuration error texts. -/
def ProviderName.asString : ProviderName → String
  | .openai => "openai"
  | .anthropic => "anthropic"
  | .google => "google"
  | .openrouter => "openrouter"

/-- Provider descriptor (llm-service interface LLMProvider). -/
structure LLMProvider where
  name : ProviderName
  model : String
  apiKey : String
deriving DecidableEq, Repr

/-- LLM service configuration (llm-service interface LLMServiceConfig).
Tools are carried by name only; their schemas and executors belong to the
external tool registry. -/
structure LLMServiceConfig where
  provider : LLMProvider
  maxTokens : Option Nat := none
  temperature : Option Nat := none
  tools : Option (List String) := none
  systemPrompt : Option String := none
deriving DecidableEq, Repr

/-- Partial configuration for updateConfig: a field that is some v replaces
the current value, a field that is none leaves it unchanged, matching the
object-spread merge in the source. -/
structure LLMServiceConfigPartial where
  provider : Option LLMProvider := none
  maxTokens : Option Nat := none
  temperature : Option Nat := none
  tools : Option (List String) := none
  systemPrompt : Option String := none
deriving DecidableEq, Repr

/-- The three process-wide credential environment slots the service touches:
OPENAI_API_KEY, ANTHROPIC_API_KEY and GOOGLE_GENERATIVE_AI_API_KEY.  A slot
that is none is absent from the environment; some s is present with value s
(possibly empty). -/
structure EnvSlots where
  openaiKey : Option String := none
  anthropicKey : Option String := none
  googleKey : Option String := none
deriving DecidableEq, Repr

/-! ## Message Adapter (spec section 4.2; source file absent from the snapshot) -/

/-- Resolved tool-call information handed to the adapter by the agent. -/
structure ToolCallInfo where
  toolCallId : Option String := none
  toolName : String
  args : Option String := none
deriving DecidableEq, Repr

namespace MessageAdapter

/-- Modelled from the spec: MessageAdapter.createUserMessage — the
message-adapter source (src/utils/message-adapter) is not in the repository
snapshot; per section 4.2 it is a pure, total conversion producing a
user-typed uniform message tagged with the session id. -/
def createUserMessage (content sessionId : String) : SDKMessage :=
  { type := .user, content := some content, session_id := some sessionId }

/-- Modelled from the spec: MessageAdapter.createAssistantMessage — source
file absent; per section 4.2 it produces an assistant-typed uniform message
with an optional duration annotation. -/
def createAssistantMessage (content sessionId : String) (duration : Option Int) : SDKMessage :=
  { type := .assistant, content := some content, session_id := some sessionId,
    duration_ms := duration }

/-- Modelled from the spec: MessageAdapter.createErrorMessage — source file
absent; per section 4.2 it always produces a result-typed message with an
error subtype, from an error object or a plain string. -/
def createErrorMessage (err sessionId : String) : SDKMessage :=
  { type := .result, subtype := some "error", content := some err,
    session_id := some sessionId }

/-- Modelled from the spec: MessageAdapter.createToolCallMessage — source
file absent; per section 4.2 it captures the resolved tool name, the call id
and the arguments on a uniform message.  The concrete type and subtype tags
are a modelling choice (assistant-typed, subtype tool_call); no claim
depends on them beyond their being distinct from the other adapter outputs. -/
def createToolCallMessage (info : ToolCallInfo) (sessionId : String) : SDKMessage :=
  { type := .assistant, subtype := some "tool_call", message := some info.toolName,
    content := info.args, parent_tool_use_id := info.toolCallId,
    session_id := some sessionId }

/-- Modelled from the spec: MessageAdapter.createToolResultMessage — source
file absent; per section 4.2 it converts a raw tool result into a uniform
message (here user-typed with subtype tool_result, a modelling choice). -/
def createToolResultMessage (tr : ToolResultRaw) (sessionId : String) : SDKMessage :=
  { type := .user, subtype := some "tool_result", message := tr.toolName,
    content := tr.result, parent_tool_use_id := tr.toolCallId,
    session_id := some sessionId }

/-- Modelled from the spec: MessageAdapter.calculateTotalCost — source file
absent; per section 4.2 it sums the cost figures found on result-typed
messages and yields none when no such figure is present. -/
def calculateTotalCost (messages : List SDKMessage) : Option Int :=
  let costs := messages.filterMap fun m =>
    if m.type = MsgType.result then m.total_cost_usd else none
  if costs.isEmpty then none else some costs.sum

end MessageAdapter

/-! ## LLM Service (llm-service module, src/unnamed/part_001) -/

namespace LLMService

/-- Translation of LLMService.validateConfig: raises a configuration error
naming the provider when the API key or the model id is absent or empty
(JavaScript truthiness on the string fields), succeeds otherwise. -/
def validateConfig (config : LLMServiceConfig) : Except String Unit :=
  if config.provider.apiKey = "" then
    .error ("API key is required for " ++ config.provider.name.asString ++ " provider")
  else if config.provider.model = "" then
    .error ("Model is required for " ++ config.provider.name.asString ++ " provider")
  else
    .ok ()

/-- Translation of the LLMService constructor: stores the configuration and
immediately validates it; construction fails exactly when validation does. -/
def construct (config : LLMServiceConfig) : Except String LLMServiceConfig :=
  (validateConfig config).map fun _ => config

/-- Object-spread merge of a partial configuration into the current one,
as in updateConfig. -/
def mergeConfig (config : LLMServiceConfig) (p : LLMServiceConfigPartial) : LLMServiceConfig :=
  { provider := p.provider.getD config.provider,
    maxTokens := match p.maxTokens with | some v => some v | none => config.maxTokens,
    temperature := match p.temperature with | some v => some v | none => config.temperature,
    tools := match p.tools with | some v => some v | none => config.tools,
    systemPrompt := match p.systemPrompt with | some v => some v | none => config.systemPrompt }

/-- Translation of LLMService.updateConfig: merges the partial configuration
and re-validates, throwing on an invalid merged state. -/
def updateConfig (config : LLMServiceConfig) (p : LLMServiceConfigPartial) :
    Except String LLMServiceConfig :=
  let merged := mergeConfig config p
  (validateConfig merged).map fun _ => merged

/-- Effect of LLMService.getModel on the process-wide credential slots
(lines 86 to 135 of the service source): for openai, anthropic and google
the original slot value is read, the per-call credential is written, the
provider client is constructed, and then the original is written back when
it is truthy or the slot is deleted otherwise; openrouter passes the
credential directly and leaves the environment untouched. -/
def getModelEnv (provider : LLMProvider) (env : EnvSlots) : EnvSlots :=
  match provider.name with
  | .openai =>
      let original := env.openaiKey
      let envDuring := { env with openaiKey := some provider.apiKey }
      if jsTruthy original then { envDuring with openaiKey := original }
      else { envDuring with openaiKey := none }
  | .anthropic =>
      let original := env.anthropicKey
      let envDuring := { env with anthropicKey := some provider.apiKey }
      if jsTruthy original then { envDuring with anthropicKey := original }
      else { envDuring with anthropicKey := none }
  | .google =>
      let original := env.googleKey
      let envDuring := { env with googleKey := some provider.apiKey }
      if jsTruthy original then { envDuring with googleKey := original }
      else { envDuring with googleKey := none }
  | .openrouter => env

/-- Conversion of conversation messages to the SDK wire shape, dropping the
timestamp (LLMService.formatMessages). -/
def formatMessages (messages : List ConversationMessage) : List (Role × String) :=
  messages.map fun m => (m.role, m.content)

/-- Messages actually sent to the provider: the configured system prompt, if
any, is prepended to the formatted history (the unshift in generateResponse). -/
def sentMessages (config : LLMServiceConfig) (messages : List ConversationMessage) :
    List (Role × String) :=
  match config.systemPrompt with
  | some sp => (Role.system, sp) :: formatMessages messages
  | none => formatMessages messages

/-- The flat tool-call list built by the collection loop in generateResponse:
for each step, its toolCalls array, when present, is appended. -/
def collectToolCalls (steps : List Step) : List ToolCallRaw :=
  steps.foldl (fun acc s => acc ++ s.toolCalls.getD []) []

/-- The flat tool-result list built by the collection loop in
generateResponse: for each step, its toolResults array, when present, is
appended. -/
def collectToolResults (steps : List Step) : List ToolResultRaw :=
  steps.foldl (fun acc s => acc ++ s.toolResults.getD []) []

/-- The LLMResponse value assembled from a successful generateText result. -/
def responseFor (r : GenerateTextResult) : LLMResponse :=
  { content := r.text,
    usage := r.usage,
    finishReason := r.finishReason,
    toolCalls := collectToolCalls (r.steps.getD []),
    toolResults := collectToolResults (r.steps.getD []),
    steps := r.steps.getD [] }

/-- Translation of LLMService.generateResponse.  The provider SDK call
generateText is an external collaborator, passed in as its outcome: either
the raw result it produced or the exception it threw.  getModel runs first,
so the credential slots are transformed in every case; a provider failure is
wrapped with a descriptive prefix and rethrown. -/
def generateResponse (config : LLMServiceConfig) (env : EnvSlots)
    (sdkOutcome : Except String GenerateTextResult) :
    Except String LLMResponse × EnvSlots :=
  let envAfter := getModelEnv config.provider env
  match sdkOutcome with
  | .error e => (.error ("Failed to generate response: " ++ e), envAfter)
  | .ok r => (.ok (responseFor r), envAfter)

end LLMService

/-! ## SuperDesign coding agent (agent.ts, class SuperDesignCodingAgent) -/

namespace SuperDesignCodingAgent

/-- Tool-name resolution for a raw tool call (agent.ts line 571):
toolCall.toolName, else toolCall.function.name, else toolCall.name, else
the literal unknown, with JavaScript short-circuit-or semantics. -/
def resolveToolName (tc : ToolCallRaw) : String :=
  jsOrDefault (jsOr tc.toolName (jsOr tc.functionName tc.name)) "unknown"

/-- The resolved tool-call record handed to the adapter (agent.ts
lines 575 to 579): call id from toolCallId else id, the resolved name, and
arguments from args else function.arguments. -/
def toolCallInfo (tc : ToolCallRaw) : ToolCallInfo :=
  { toolCallId := jsOr tc.toolCallId tc.id,
    toolName := resolveToolName tc,
    args := jsOr tc.args tc.functionArguments }

/-- Body of the per-step loop in executeTaskWithStreaming (agent.ts
lines 565 to 600): for every tool call of the step, in order, the tool name
is accumulated and a tool-call message is appended; then for every tool
result of the step, in order, a tool-result message is appended.  The
accumulator carries the message list and the raw toolsUsed list. -/
def stepFold (sessionId : String) (acc : List SDKMessage × List String) (step : Step) :
    List SDKMessage × List String :=
  let afterCalls := (step.toolCalls.getD []).foldl
    (fun a tc =>
      (a.1 ++ [MessageAdapter.createToolCallMessage (toolCallInfo tc) sessionId],
       a.2 ++ [resolveToolName tc]))
    acc
  ((step.toolResults.getD []).foldl
    (fun m tr => m ++ [MessageAdapter.createToolResultMessage tr sessionId])
    afterCalls.1,
   afterCalls.2)

/-- The messages one step contributes, stated directly from the spec wording
for comparison with the fold of the source: the tool-call messages of the
step in call order, followed by its tool-result messages in result order. -/
def stepMessagesSpec (sessionId : String) (step : Step) : List SDKMessage :=
  (step.toolCalls.getD []).map
    (fun tc => MessageAdapter.createToolCallMessage (toolCallInfo tc) sessionId)
  ++ (step.toolResults.getD []).map
    (fun tr => MessageAdapter.createToolResultMessage tr sessionId)

/-- The tool names one step contributes, in call order. -/
def stepToolNames (step : Step) : List String :=
  (step.toolCalls.getD []).map resolveToolName

/-- Concatenation of the per-step contributions over a step list. -/
def concatOverSteps {β : Type} (f : Step → List β) : List Step → List β
  | [] => []
  | s :: rest => f s ++ concatOverSteps f rest

/-- Per-session conversation history store of the agent (the
conversationHistory Map of SuperDesignCodingAgent). -/
abbrev HistoryStore := List (String × List ConversationMessage)

/-- Translation of SuperDesignCodingAgent.executeTaskWithStreaming (agent.ts
lines 505 to 644).  The LLM call made through generateWithTools is the one
fallible operation of the body (the adapter conversions are total, spec
section 4.2); it is passed in as its outcome llmOutcome, carrying either the
LLMResponse or the message of the exception it threw, already wrapped by the
service.  Clock readings are explicit: tStart at entry, tMid when the
assistant message is built, tEnd at return.  Returns the task result and the
updated history store; the user message is pushed into the history before the
LLM call, so it persists on the failure path too. -/
def executeTaskWithStreaming (request : String) (options : AgentOptions)
    (histories : HistoryStore) (llmOutcome : Except String LLMResponse)
    (tStart tMid tEnd : Int) : TaskResult × HistoryStore :=
  let sessionId := jsOrDefault options.sessionId ("session-" ++ toString tStart)
  let history := (lookupStore histories sessionId).getD []
  let history := history ++ [{ role := .user, content := request, timestamp := some tStart }]
  let messages : List SDKMessage := [MessageAdapter.createUserMessage request sessionId]
  match llmOutcome with
  | .error e =>
      ({ success := false,
         messages := messages ++ [MessageAdapter.createErrorMessage e sessionId],
         finalMessage := some e,
         toolsUsed := jsSetDedup [],
         duration := tEnd - tStart,
         totalCost := none,
         error := some e },
       insertStore histories sessionId history)
  | .ok llmResponse =>
      let hasContent := llmResponse.content ≠ ""
      let history := if hasContent then
          history ++ [{ role := .assistant, content := llmResponse.content,
                        timestamp := some tMid }]
        else history
      let messages := if hasContent then
          messages ++ [MessageAdapter.createAssistantMessage llmResponse.content sessionId
                        (some (tMid - tStart))]
        else messages
      let acc := llmResponse.steps.foldl (stepFold sessionId) (messages, [])
      let messages := acc.1
      let toolsUsed := acc.2
      let finalMessage :=
        if hasContent then llmResponse.content
        else
          match messages.reverse.find?
              (fun m => m.type == MsgType.assistant && !(jsTruthy m.subtype)) with
          | some m => jsOrDefault m.content "Task completed"
          | none => "Task completed"
      ({ success := true,
         messages := messages,
         finalMessage := some finalMessage,
         toolsUsed := jsSetDedup toolsUsed,
         duration := tEnd - tStart,
         totalCost := MessageAdapter.calculateTotalCost messages,
         error := none },
       insertStore histories sessionId history)

/-- Outcome conversion of the query method (agent.ts lines 470 to 500): the
try body returns the message list of the task result; the catch clause
converts a thrown error into a single uniform error message.  Since the
translated executeTaskWithStreaming is total, the catch branch is reachable
only through a hypothetical throw, which this function receives explicitly. -/
def queryOutcome (outcome : Except String TaskResult) (sessionId : String) :
    List SDKMessage :=
  match outcome with
  | .ok result => result.messages
  | .error e => [MessageAdapter.createErrorMessage e sessionId]

/-- Translation of SuperDesignCodingAgent.query: derives the session id when
absent, delegates to executeTaskWithStreaming and returns its message list
together with the updated history store.  The delegate never throws, so the
delegated outcome is always an ok value. -/
def query (prompt : String) (options : AgentOptions) (histories : HistoryStore)
    (llmOutcome : Except String LLMResponse) (tStart tMid tEnd : Int) :
    List SDKMessage × HistoryStore :=
  let sessionId := jsOrDefault options.sessionId ("session-" ++ toString tStart)
  let r := executeTaskWithStreaming prompt { options with sessionId := some sessionId }
    histories llmOutcome tStart tMid tEnd
  (queryOutcome (.ok r.1) sessionId, r.2)

end SuperDesignCodingAgent

/-! ## Base agent session machinery (agent.ts, class BaseAgent) -/

/-- Combined mutable state of a SuperDesignCodingAgent instance: the session
store of BaseAgent and the per-session conversation history store. -/
structure AgentState where
  sessions : List (String × AgentSession) := []
  histories : SuperDesignCodingAgent.HistoryStore := []
deriving DecidableEq, Repr

namespace BaseAgent

/-- Translation of BaseAgent.getSession (agent.ts lines 380 to 396): return
the stored session when present, otherwise create a fresh one at the current
clock reading, store it and return it. -/
def getSession (sessionId projectPath : String) (now : Int) (st : AgentState) :
    AgentSession × AgentState :=
  match lookupStore st.sessions sessionId with
  | some session => (session, st)
  | none =>
      let session : AgentSession :=
        { id := sessionId, startTime := now, lastActivity := now,
          projectPath := projectPath, turns := [] }
      (session, { st with sessions := insertStore st.sessions sessionId session })

/-- Translation of BaseAgent.continueConversation (agent.ts lines 344 to
378): fails with a session-not-found error when the id is unknown, leaving
the state untouched; otherwise refreshes lastActivity, delegates to
executeTaskWithStreaming with the session id fixed, converts the task result
into an agent response and appends a conversation turn to the session. -/
def continueConversation (message conversationId : String) (options : AgentOptions)
    (st : AgentState) (llmOutcome : Except String LLMResponse)
    (now tStart tMid tEnd : Int) : Except String AgentResponse × AgentState :=
  match lookupStore st.sessions conversationId with
  | none => (.error ("Session " ++ conversationId ++ " not found"), st)
  | some session =>
      let session := { session with lastActivity := now }
      let r := SuperDesignCodingAgent.executeTaskWithStreaming message
        { options with sessionId := some conversationId } st.histories llmOutcome
        tStart tMid tEnd
      let result := r.1
      let response : AgentResponse :=
        { messages := result.messages,
          isComplete := result.success,
          suggestedActions := if result.success then [] else ["retry", "clarify"] }
      let turn : ConversationTurn :=
        { id := "turn-" ++ toString tEnd, timestamp := tEnd,
          userMessage := message, agentResponse := response, toolResults := [] }
      let session := { session with turns := session.turns ++ [turn] }
      (.ok response,
       { sessions := insertStore st.sessions conversationId session, histories := r.2 })

/-- Default session age bound of cleanupSessions: 24 hours in milliseconds. -/
def defaultSessionMaxAge : Int := 24 * 60 * 60 * 1000

/-- Translation of BaseAgent.cleanupSessions (agent.ts lines 398 to 406):
one synchronous sweep deleting every session whose lastActivity lies
strictly more than maxAge before the current clock reading. -/
def cleanupSessions (now maxAge : Int) (sessions : List (String × AgentSession)) :
    List (String × AgentSession) :=
  sessions.filter fun p => !(decide (maxAge < now - p.2.lastActivity))

/-- cleanupSessions with the maxAge parameter left at its default. -/
def cleanupSessionsDefault (now : Int) (sessions : List (String × AgentSession)) :
    List (String × AgentSession) :=
  cleanupSessions now defaultSessionMaxAge sessions

end BaseAgent

/-! ## The delegating wrapper (agent.ts, class ClaudeCodeAgentWrapper) -/

namespace ClaudeCodeAgentWrapper

/-- Translation of ClaudeCodeAgentWrapper.executeTaskWithStreaming (agent.ts
lines 791 to 802): the delegated query produced the given message list; the
wrapper returns success true, the last content as final message, an empty
toolsUsed list and duration zero, unconditionally. -/
def executeTaskWithStreaming (messages : List SDKMessage) : TaskResult :=
  { success := true,
    messages := messages,
    finalMessage := messages.getLast?.bind (fun m => m.content),
    toolsUsed := [],
    duration := 0,
    totalCost := none,
    error := none }

/-- Translation of ClaudeCodeAgentWrapper.getSession (agent.ts lines 837 to
846): a fresh session value is constructed at the current clock reading on
every call; nothing is stored. -/
def getSession (sessionId projectPath : String) (now : Int) : AgentSession :=
  { id := sessionId, startTime := now, lastActivity := now,
    projectPath := projectPath, turns := [] }

end ClaudeCodeAgentWrapper

/-! ## Helper lemmas -/

theorem jsOrDefault_ne_empty (a : Option String) (d : String) (hd : d ≠ "") :
    jsOrDefault a d ≠ "" := by
  cases a with
  | none => simpa [jsOrDefault, jsTruthy] using hd
  | some s =>
      by_cases hs : s = ""
      · simpa [jsOrDefault, jsTruthy, hs] using hd
      · simp [jsOrDefault, jsTruthy, hs]

theorem session_prefix_ne_empty (x : String) : "session-" ++ x ≠ "" := by
  intro h
  have hl : ("session-" ++ x).length = (0 : Nat) := by rw [h]; rfl
  rw [String.length_append] at hl
  have h8 : "session-".length = 8 := rfl
  omega

theorem jsOrDefault_some_of_ne_empty (s d : String) (hs : s ≠ "") :
    jsOrDefault (some s) d = s := by
  simp [jsOrDefault, jsTruthy, hs]

theorem resolvedSessionId_stable (a : Option String) (x : String) :
    jsOrDefault (some (jsOrDefault a ("session-" ++ x))) ("session-" ++ x)
      = jsOrDefault a ("session-" ++ x) :=
  jsOrDefault_some_of_ne_empty _ _ (jsOrDefault_ne_empty a _ (session_prefix_ne_empty x))

theorem foldl_append_concat {β : Type} (f : Step → List β) (steps : List Step)
    (init : List β) :
    steps.foldl (fun acc s => acc ++ f s) init
      = init ++ SuperDesignCodingAgent.concatOverSteps f steps := by
  induction steps generalizing init with
  | nil => simp [SuperDesignCodingAgent.concatOverSteps]
  | cons s rest ih =>
      simp [List.foldl_cons, SuperDesignCodingAgent.concatOverSteps, ih, List.append_assoc]

theorem concatOverSteps_length {β : Type} (f : Step → List β) (steps : List Step) :
    (SuperDesignCodingAgent.concatOverSteps f steps).length
      = (steps.map fun s => (f s).length).sum := by
  induction steps with
  | nil => simp [SuperDesignCodingAgent.concatOverSteps]
  | cons s rest ih =>
      simp [SuperDesignCodingAgent.concatOverSteps, List.length_append, ih]

theorem foldl_push_pair {α β γ : Type} (f : α → β) (g : α → γ) (l : List α)
    (m : List β) (t : List γ) :
    l.foldl (fun a x => (a.1 ++ [f x], a.2 ++ [g x])) (m, t)
      = (m ++ l.map f, t ++ l.map g) := by
  induction l generalizing m t with
  | nil => simp
  | cons x xs ih => simp [List.foldl_cons, ih]

theorem foldl_push_single {α β : Type} (f : α → β) (l : List α) (init : List β) :
    l.foldl (fun m x => m ++ [f x]) init = init ++ l.map f := by
  induction l generalizing init with
  | nil => simp
  | cons x xs ih => simp [List.foldl_cons, ih]

theorem stepFold_eq (sessionId : String) (acc : List SDKMessage × List String) (s : Step) :
    SuperDesignCodingAgent.stepFold sessionId acc s
      = (acc.1 ++ SuperDesignCodingAgent.stepMessagesSpec sessionId s,
         acc.2 ++ SuperDesignCodingAgent.stepToolNames s) := by
  obtain ⟨m, t⟩ := acc
  simp [SuperDesignCodingAgent.stepFold, SuperDesignCodingAgent.stepMessagesSpec,
    SuperDesignCodingAgent.stepToolNames, foldl_push_pair, foldl_push_single,
    List.append_assoc]

theorem foldl_stepFold (sessionId : String) (steps : List Step)
    (m : List SDKMessage) (t : List String) :
    steps.foldl (SuperDesignCodingAgent.stepFold sessionId) (m, t)
      = (m ++ SuperDesignCodingAgent.concatOverSteps
            (SuperDesignCodingAgent.stepMessagesSpec sessionId) steps,
         t ++ SuperDesignCodingAgent.concatOverSteps
            SuperDesignCodingAgent.stepToolNames steps) := by
  induction steps generalizing m t with
  | nil => simp [SuperDesignCodingAgent.concatOverSteps]
  | cons s rest ih =>
      simp [List.foldl_cons, stepFold_eq, ih, SuperDesignCodingAgent.concatOverSteps,
        List.append_assoc]

/-! ## Claim theorems -/

/-- C1: when the LLM call inside SuperDesignCodingAgent.executeTaskWithStreaming
throws (the one fallible operation of the body; the adapter conversions are
total), the method does not propagate the exception: it returns success false
with the error text populated, the message list already built (here the user
message emitted before the call) with exactly one uniform error message
appended at the end, and the toolsUsed accumulated so far (necessarily none
at any reachable throw point) deduplicated as on the success path. -/
theorem C1_executeTaskWithStreaming_failure_policy
    (request : String) (options : AgentOptions)
    (histories : SuperDesignCodingAgent.HistoryStore) (e : String)
    (tStart tMid tEnd : Int) :
    (SuperDesignCodingAgent.executeTaskWithStreaming request options histories
        (.error e) tStart tMid tEnd).1
      = { success := false,
          messages :=
            [MessageAdapter.createUserMessage request
              (jsOrDefault options.sessionId ("session-" ++ toString tStart))]
            ++ [MessageAdapter.createErrorMessage e
              (jsOrDefault options.sessionId ("session-" ++ toString tStart))],
          finalMessage := some e,
          toolsUsed := jsSetDedup [],
          duration := tEnd - tStart,
          totalCost := none,
          error := some e } := by
  rfl

/-- C2: on a successful LLM call, the returned uniform message list is the
user message, then the assistant text message exactly when the response
content is non-empty, then for each step in provider order that step's
tool-call messages followed by its tool-result messages, each in reported
order.  The statement compares the foldl of the source loop against the
spec-side ordered concatenation stepMessagesSpec. -/
theorem C2_executeTaskWithStreaming_message_order
    (request : String) (options : AgentOptions)
    (histories : SuperDesignCodingAgent.HistoryStore) (resp : LLMResponse)
    (tStart tMid tEnd : Int) :
    ((SuperDesignCodingAgent.executeTaskWithStreaming request options histories
        (.ok resp) tStart tMid tEnd).1).success = true
    ∧ ((SuperDesignCodingAgent.executeTaskWithStreaming request options histories
        (.ok resp) tStart tMid tEnd).1).messages
      = [MessageAdapter.createUserMessage request
            (jsOrDefault options.sessionId ("session-" ++ toString tStart))]
        ++ (if resp.content ≠ "" then
              [MessageAdapter.createAssistantMessage resp.content
                (jsOrDefault options.sessionId ("session-" ++ toString tStart))
                (some (tMid - tStart))]
            else [])
        ++ SuperDesignCodingAgent.concatOverSteps
            (SuperDesignCodingAgent.stepMessagesSpec
              (jsOrDefault options.sessionId ("session-" ++ toString tStart)))
            resp.steps := by
  constructor
  · by_cases h : resp.content = "" <;>
      simp [SuperDesignCodingAgent.executeTaskWithStreaming, h, foldl_stepFold]
  · by_cases h : resp.content = "" <;>
      simp [SuperDesignCodingAgent.executeTaskWithStreaming, h, foldl_stepFold,
        List.append_assoc]

/-- C3: when the provider SDK call succeeds, LLMService.generateResponse
returns a result whose flat toolCalls list has length equal to the sum over
the returned steps of each step's tool-call count, and likewise for
toolResults: every per-step call and result is collected into the flat
lists.  The conversation history and tool set only shape the request sent to
the provider, so the statement quantifies over every raw SDK result. -/
theorem C3_generateResponse_flattening
    (config : LLMServiceConfig) (env : EnvSlots) (r : GenerateTextResult) :
    (LLMService.generateResponse config env (.ok r)).1
      = .ok (LLMService.responseFor r)
    ∧ (LLMService.responseFor r).toolCalls.length
      = ((LLMService.responseFor r).steps.map fun s => (s.toolCalls.getD []).length).sum
    ∧ (LLMService.responseFor r).toolResults.length
      = ((LLMService.responseFor r).steps.map fun s => (s.toolResults.getD []).length).sum := by
  refine ⟨rfl, ?_, ?_⟩
  · simp [LLMService.responseFor, LLMService.collectToolCalls, foldl_append_concat,
      concatOverSteps_length]
  · simp [LLMService.responseFor, LLMService.collectToolResults, foldl_append_concat,
      concatOverSteps_length]

/-- C4: SuperDesignCodingAgent.query never raises.  The translated query is a
total function; the catch clause of the source converts any thrown error
into a single uniform error message, which is result-typed with the error
subtype (queryOutcome on an error outcome); when the delegate completes,
query returns exactly the message list of its task result; and when the LLM
call fails, the returned list still ends in the result-typed error message,
so callers can detect failure from the last entry. -/
theorem C4_query_error_conversion
    (prompt : String) (options : AgentOptions)
    (histories : SuperDesignCodingAgent.HistoryStore)
    (llmOutcome : Except String LLMResponse) (e : String) (tStart tMid tEnd : Int) :
    SuperDesignCodingAgent.queryOutcome (.error e)
        (jsOrDefault options.sessionId ("session-" ++ toString tStart))
      = [MessageAdapter.createErrorMessage e
          (jsOrDefault options.sessionId ("session-" ++ toString tStart))]
    ∧ (MessageAdapter.createErrorMessage e
        (jsOrDefault options.sessionId ("session-" ++ toString tStart))).type
      = MsgType.result
    ∧ (MessageAdapter.createErrorMessage e
        (jsOrDefault options.sessionId ("session-" ++ toString tStart))).subtype
      = some "error"
    ∧ (SuperDesignCodingAgent.query prompt options histories llmOutcome tStart tMid tEnd).1
      = (SuperDesignCodingAgent.executeTaskWithStreaming prompt
          { options with
              sessionId := some (jsOrDefault options.sessionId
                ("session-" ++ toString tStart)) }
          histories llmOutcome tStart tMid tEnd).1.messages
    ∧ ((SuperDesignCodingAgent.query prompt options histories (.error e)
          tStart tMid tEnd).1).getLast?
      = some (MessageAdapter.createErrorMessage e
          (jsOrDefault options.sessionId ("session-" ++ toString tStart))) := by
  refine ⟨rfl, rfl, rfl, rfl, ?_⟩
  simp [SuperDesignCodingAgent.query, SuperDesignCodingAgent.queryOutcome,
    SuperDesignCodingAgent.executeTaskWithStreaming, resolvedSessionId_stable]

/-- C5: continueConversation with a conversation id that is not in the
session store fails with the session-not-found error and leaves the whole
agent state unchanged: in particular no session is created as a side
effect. -/
theorem C5_continueConversation_unknown_session
    (message conversationId : String) (options : AgentOptions) (st : AgentState)
    (llmOutcome : Except String LLMResponse) (now tStart tMid tEnd : Int)
    (h : lookupStore st.sessions conversationId = none) :
    BaseAgent.continueConversation message conversationId options st llmOutcome
        now tStart tMid tEnd
      = (.error ("Session " ++ conversationId ++ " not found"), st) := by
  simp [BaseAgent.continueConversation, h]

/-- C5 witness: a concrete call on the empty session store. -/
theorem C5_continueConversation_unknown_session_witness :
    BaseAgent.continueConversation "hello" "conv1" {} { sessions := [], histories := [] }
        (.error "boom") 0 0 0 0
      = (.error ("Session " ++ "conv1" ++ " not found"),
         { sessions := [], histories := [] }) :=
  C5_continueConversation_unknown_session "hello" "conv1" {} _ _ 0 0 0 0 rfl

/-- C6 counterexample: the claim quantifies over every agent implementation
satisfying the shared contract, but ClaudeCodeAgentWrapper.getSession
constructs a fresh session value on every call instead of returning a stored
one, so two calls in succession (here with the millisecond clock advancing
from 0 to 1) return different sessions — not the same underlying object. -/
theorem C6_getSession_wrapper_counterexample :
    ClaudeCodeAgentWrapper.getSession "s1" "/p" 0
      ≠ ClaudeCodeAgentWrapper.getSession "s1" "/p" 1 := by
  decide

/-- C6 amended: for BaseAgent.getSession (the implementation inherited by
SuperDesignCodingAgent), calling getSession twice in succession with the
same id returns the same session both times — whatever the clock reads at
the second call — and the second call changes neither the returned turns nor
the store; ClaudeCodeAgentWrapper.getSession instead builds a fresh session
value each call and is not idempotent. -/
theorem C6_getSession_idempotent_base
    (sessionId projectPath : String) (now1 now2 : Int) (st : AgentState) :
    BaseAgent.getSession sessionId projectPath now2
        (BaseAgent.getSession sessionId projectPath now1 st).2
      = BaseAgent.getSession sessionId projectPath now1 st := by
  cases h : lookupStore st.sessions sessionId with
  | some session => simp [BaseAgent.getSession, h]
  | none => simp [BaseAgent.getSession, h, lookupStore_insertStore_self]

/-- C7: cleanupSessions removes exactly the sessions whose lastActivity is
strictly older than maxAge before the current clock reading: an entry at
now - (maxAge + 1) is removed, an entry at now - (maxAge - 1) is retained,
and the default threshold is 24 hours in milliseconds, 86400000. -/
theorem C7_cleanupSessions_eviction
    (now maxAge : Int) (sessions : List (String × AgentSession))
    (p : String × AgentSession) :
    (p ∈ BaseAgent.cleanupSessions now maxAge sessions
        ↔ p ∈ sessions ∧ now - p.2.lastActivity ≤ maxAge)
    ∧ (p ∈ sessions → p.2.lastActivity = now - (maxAge + 1) →
        p ∉ BaseAgent.cleanupSessions now maxAge sessions)
    ∧ (p ∈ sessions → p.2.lastActivity = now - (maxAge - 1) →
        p ∈ BaseAgent.cleanupSessions now maxAge sessions)
    ∧ BaseAgent.cleanupSessionsDefault now sessions
      = BaseAgent.cleanupSessions now 86400000 sessions := by
  have hmem : p ∈ BaseAgent.cleanupSessions now maxAge sessions
      ↔ p ∈ sessions ∧ now - p.2.lastActivity ≤ maxAge := by
    simp [BaseAgent.cleanupSessions, List.mem_filter, not_lt]
  refine ⟨hmem, ?_, ?_, rfl⟩
  · intro hp hla
    rw [hmem]
    intro hcontra
    omega
  · intro hp hla
    rw [hmem]
    exact ⟨hp, by omega⟩

/-- C7 witness data: a session whose lastActivity is 89 = 100 - (10 + 1). -/
def staleSession : AgentSession :=
  { id := "old", startTime := 0, lastActivity := 89, projectPath := "/p" }

/-- C7 witness data: a session whose lastActivity is 91 = 100 - (10 - 1). -/
def recentSession : AgentSession :=
  { id := "new", startTime := 0, lastActivity := 91, projectPath := "/p" }

/-- C7 witness: at clock 100 with maxAge 10, the stale session is evicted
and the recent one is retained. -/
theorem C7_cleanupSessions_eviction_witness :
    ("old", staleSession)
        ∉ BaseAgent.cleanupSessions 100 10 [("old", staleSession), ("new", recentSession)]
    ∧ ("new", recentSession)
        ∈ BaseAgent.cleanupSessions 100 10 [("old", staleSession), ("new", recentSession)] :=
  ⟨(C7_cleanupSessions_eviction 100 10 _ _).2.1 (by decide) (by decide),
   (C7_cleanupSessions_eviction 100 10 _ _).2.2.1 (by decide) (by decide)⟩

/-- C8: constructing the LLMService succeeds exactly for a provider
descriptor with a non-empty credential and a non-empty model id; when either
field is empty the constructor raises a configuration error naming the
provider, and updateConfig into such a merged state fails the same way. -/
theorem C8_llmservice_config_validation
    (config : LLMServiceConfig) (p : LLMServiceConfigPartial) :
    (config.provider.apiKey ≠ "" → config.provider.model ≠ "" →
        LLMService.construct config = .ok config)
    ∧ (config.provider.apiKey = "" →
        LLMService.construct config
          = .error ("API key is required for "
              ++ config.provider.name.asString ++ " provider"))
    ∧ (config.provider.apiKey ≠ "" → config.provider.model = "" →
        LLMService.construct config
          = .error ("Model is required for "
              ++ config.provider.name.asString ++ " provider"))
    ∧ ((LLMService.mergeConfig config p).provider.apiKey ≠ "" →
        (LLMService.mergeConfig config p).provider.model ≠ "" →
        LLMService.updateConfig config p = .ok (LLMService.mergeConfig config p))
    ∧ ((LLMService.mergeConfig config p).provider.apiKey = "" →
        LLMService.updateConfig config p
          = .error ("API key is required for "
              ++ (LLMService.mergeConfig config p).provider.name.asString
              ++ " provider")) := by
  refine ⟨?_, ?_, ?_, ?_, ?_⟩ <;>
    intros <;>
    simp_all [LLMService.construct, LLMService.updateConfig, LLMService.validateConfig,
      Except.map]

/-- C8 witness: a complete descriptor constructs, a descriptor missing the
credential raises the configuration error naming its provider. -/
theorem C8_llmservice_config_validation_witness :
    LLMService.construct { provider := { name := .openai, model := "gpt-4o", apiKey := "sk-test" } }
      = .ok { provider := { name := .openai, model := "gpt-4o", apiKey := "sk-test" } }
    ∧ LLMService.construct { provider := { name := .anthropic, model := "claude-3", apiKey := "" } }
      = .error ("API key is required for "
          ++ ProviderName.anthropic.asString ++ " provider") :=
  ⟨(C8_llmservice_config_validation
      { provider := { name := .openai, model := "gpt-4o", apiKey := "sk-test" } } {}).1
      (by decide) (by decide),
   (C8_llmservice_config_validation
      { provider := { name := .anthropic, model := "claude-3", apiKey := "" } } {}).2.1
      rfl⟩

/-- C9 counterexample: the claim says the credential slot holds exactly the
value it held before the call, restored if it existed.  With the openai slot
present but holding the empty string before the call, the restore branch
tests JavaScript truthiness of the saved original, so the slot is deleted
instead of restored: it is absent afterwards although it existed before. -/
theorem C9_credential_slot_counterexample :
    ((some "" : Option String) ≠ none)
    ∧ (LLMService.getModelEnv { name := .openai, model := "m", apiKey := "k" }
        { openaiKey := some "", anthropicKey := none, googleKey := none }).openaiKey
      = none := by
  exact ⟨by decide, rfl⟩

/-- C9 amended: after the model-selection step, for each provider in openai,
anthropic and google, the corresponding credential slot holds the value it
held before the call when that value was truthy (present and non-empty), and
is absent otherwise — in particular an absent slot stays absent, so the
per-call credential never outlives the call, but a pre-existing empty-string
value is deleted rather than restored; the other slots are untouched,
openrouter leaves the environment unchanged, and generateResponse applies
exactly this transformation whether the provider call succeeds or throws. -/
theorem C9_credential_slot_restoration
    (model apiKey : String) (env : EnvSlots) (config : LLMServiceConfig)
    (sdkOutcome : Except String GenerateTextResult) :
    LLMService.getModelEnv { name := .openai, model := model, apiKey := apiKey } env
      = { env with openaiKey := if jsTruthy env.openaiKey then env.openaiKey else none }
    ∧ LLMService.getModelEnv { name := .anthropic, model := model, apiKey := apiKey } env
      = { env with anthropicKey := if jsTruthy env.anthropicKey then env.anthropicKey else none }
    ∧ LLMService.getModelEnv { name := .google, model := model, apiKey := apiKey } env
      = { env with googleKey := if jsTruthy env.googleKey then env.googleKey else none }
    ∧ LLMService.getModelEnv { name := .openrouter, model := model, apiKey := apiKey } env
      = env
    ∧ (LLMService.generateResponse config env sdkOutcome).2
      = LLMService.getModelEnv config.provider env := by
  refine ⟨?_, ?_, ?_, rfl, ?_⟩
  · simp only [LLMService.getModelEnv]; split <;> rfl
  · simp only [LLMService.getModelEnv]; split <;> rfl
  · simp only [LLMService.getModelEnv]; split <;> rfl
  · cases sdkOutcome <;> rfl

/-- C10: ClaudeCodeAgentWrapper.executeTaskWithStreaming reports success
true, an empty toolsUsed list and duration zero for every delegated message
list — even one consisting of a single uniform error message — so the
wrapper never signals failure through the success flag of the task result. -/
theorem C10_wrapper_always_reports_success
    (messages : List SDKMessage) (e sessionId : String) :
    (ClaudeCodeAgentWrapper.executeTaskWithStreaming messages).success = true
    ∧ (ClaudeCodeAgentWrapper.executeTaskWithStreaming messages).toolsUsed = []
    ∧ (ClaudeCodeAgentWrapper.executeTaskWithStreaming messages).duration = 0
    ∧ (ClaudeCodeAgentWrapper.executeTaskWithStreaming messages).messages = messages
    ∧ (ClaudeCodeAgentWrapper.executeTaskWithStreaming
        [MessageAdapter.createErrorMessage e sessionId]).success = true :=
  ⟨rfl, rfl, rfl, rfl, rfl⟩
